import Mathlib

/-!
Verification of the Product CRUD service.

The HTTP route handlers are embedded from `service/routes.py`.  The entity
model (`service/models.py`) is not part of the available sources — only its
tests and its callers are — so the `Product` entity, its serialize/deserialize
contract, the `Category` enumeration and the data-access layer are modelled
from the specification document (each such definition carries a
`Modelled from the spec:` doc comment).
-/

namespace ProductStore

/-- Modelled from the spec: the `Category` enumeration of `service/models.py`
(absent from the sources): "enumerated value (members: UNKNOWN plus a fixed
set of category names)".  The member list follows the categories exercised by
the test-suite (`Category.CLOTHS`) and the project's fixed set. -/
inductive Category where
  | UNKNOWN
  | CLOTHS
  | FOOD
  | HOUSEWARES
  | AUTOMOTIVE
  | TOOLS
deriving DecidableEq, Repr

/-- Modelled from the spec: the `.name` attribute of an enumeration member,
used by `serialize` ("category (enum name string)"). -/
def Category.name : Category → String
  | .UNKNOWN => "UNKNOWN"
  | .CLOTHS => "CLOTHS"
  | .FOOD => "FOOD"
  | .HOUSEWARES => "HOUSEWARES"
  | .AUTOMOTIVE => "AUTOMOTIVE"
  | .TOOLS => "TOOLS"

/-- Case-sensitive lookup of an enumeration member by its name.  This models
`getattr(Category, value)` raising `AttributeError` (routes.py line 127) and
the deserialize rule "category does not match a known enumeration member":
`none` plays the role of the raised lookup failure. -/
def Category.fromName (s : String) : Option Category :=
  if s = "UNKNOWN" then some .UNKNOWN
  else if s = "CLOTHS" then some .CLOTHS
  else if s = "FOOD" then some .FOOD
  else if s = "HOUSEWARES" then some .HOUSEWARES
  else if s = "AUTOMOTIVE" then some .AUTOMOTIVE
  else if s = "TOOLS" then some .TOOLS
  else none

theorem Category.fromName_name (c : Category) : Category.fromName c.name = some c := by
  cases c <;> rfl

/-- A decimal number with explicit scale, modelling Python's `Decimal`
(`12.50` is `⟨1250, 2⟩`).  The scale is kept so that the string rendering
("price (as string)") is faithful: `Decimal("12.50")` renders as `"12.50"`,
not `"12.5"`. -/
structure Dec where
  mant : Int
  scale : Nat
deriving DecidableEq, Repr

/-- The numeric value of a decimal, for "price compared as numeric value". -/
def Dec.toRat (d : Dec) : Rat := (d.mant : Rat) / ((10 : Rat) ^ d.scale)

/-- The string rendering of a decimal, as produced by `str(Decimal(...))`. -/
def Dec.render (d : Dec) : String :=
  if d.scale = 0 then toString d.mant
  else
    let digits := toString d.mant.natAbs
    let padded := String.mk (List.replicate (d.scale + 1 - digits.length) '0') ++ digits
    let n := padded.length
    (if d.mant < 0 then "-" else "") ++ padded.take (n - d.scale) ++ "." ++ padded.takeRight d.scale

/-- Dynamically-typed values appearing in request/response payloads (the
subset of Python values the service traffics in).  `vDecStr d` is a string
whose characters are the decimal rendering `d.render`; it is kept as a tagged
decimal so that numeric comparison of serialized prices stays decidable. -/
inductive Value where
  | vNull : Value
  | vStr : String → Value
  | vBool : Bool → Value
  | vInt : Int → Value
  | vDec : Dec → Value
  | vDecStr : Dec → Value
deriving DecidableEq, Repr

/-- Python's `str()` conversion on our value universe, used by `serialize`
for the price field ("always serialized as a string on output"). -/
def pyStr : Value → Value
  | .vStr s => .vStr s
  | .vBool b => .vStr (cond b "True" "False")
  | .vInt n => .vStr (toString n)
  | .vDec d => .vDecStr d
  | .vDecStr d => .vDecStr d
  | .vNull => .vStr "None"

/-- The numeric reading of a value, if any: both a `Decimal` and a
numeric string compare by their decimal value (`Decimal(x)` coercion used
throughout the tests). -/
def Value.toRat? : Value → Option Rat
  | .vDec d => some d.toRat
  | .vDecStr d => some d.toRat
  | _ => none

/-- The concrete string a value renders to when it is a string value
(either a plain string or a decimal rendered by `str`). -/
def Value.renderStr : Value → Option String
  | .vStr s => some s
  | .vDecStr d => some d.render
  | _ => none

/-- Modelled from the spec: the `Product` entity of `service/models.py`
(absent from the sources).  `id` is "null before persistence"; `name`,
`description` and `price` hold whatever value deserialize assigned them
(the spec lists no type check for these three on input), while `available`
and `category` are type-checked on input and hence typed here. -/
structure Product where
  id : Option Int
  name : Value
  description : Value
  price : Value
  available : Bool
  category : Category
deriving DecidableEq, Repr

/-- A freshly constructed `Product()` with no fields populated. -/
def Product.fresh : Product :=
  { id := none, name := .vNull, description := .vNull, price := .vNull
    available := false, category := .UNKNOWN }

/-- Modelled from the spec: `serialize() -> mapping`: "produces
`(id, name, description, price (as string), available (bool), category
(enum name string))`.  Always succeeds for a fully-populated instance." -/
def Product.serialize (p : Product) : List (String × Value) :=
  [ ("id", match p.id with | some i => .vInt i | none => .vNull)
  , ("name", p.name)
  , ("description", p.description)
  , ("price", pyStr p.price)
  , ("available", .vBool p.available)
  , ("category", .vStr p.category.name) ]

/-- A request body as seen by `deserialize`: either a mapping (a Python
dict, modelled as the list of its key/value entries, keys distinct) or a
non-mapping value such as the empty string. -/
inductive PyData where
  | map : List (String × Value) → PyData
  | atom : Value → PyData
deriving DecidableEq, Repr

/-- Key lookup in a mapping (`data[k]`, with `none` for a raised `KeyError`). -/
def assocFind : List (String × Value) → String → Option Value
  | [], _ => none
  | kv :: rest, k => if kv.1 = k then some kv.2 else assocFind rest k

/-- Modelled from the spec: `deserialize(mapping) -> self` "fails with a
validation error when: input is not a mapping (e.g. empty string), a required
key is missing, `available` is present but not boolean-typed, or `category`
does not match a known enumeration member.  On success, mutates the
instance's fields in place and returns it."  Failure is an
`Except.error` (the `DataValidationError` message); `id` is never touched. -/
def Product.deserialize (p : Product) (data : PyData) : Except String Product :=
  match data with
  | .atom _ => .error "body of request contained bad or no data"
  | .map m =>
    match assocFind m "name" with
    | none => .error "missing name"
    | some nameV =>
      match assocFind m "description" with
      | none => .error "missing description"
      | some descV =>
        match assocFind m "price" with
        | none => .error "missing price"
        | some priceV =>
          match assocFind m "available" with
          | none => .error "missing available"
          | some availV =>
            match availV with
            | .vBool b =>
              match assocFind m "category" with
              | none => .error "missing category"
              | some catV =>
                match catV with
                | .vStr s =>
                  match Category.fromName s with
                  | some c =>
                    .ok { p with name := nameV, description := descV,
                                 price := priceV, available := b, category := c }
                  | none => .error "invalid category"
                | _ => .error "invalid category"
            | _ => .error "invalid type for boolean available"

/-- Whether an `Except` result is the failure case. -/
def Except.isErr : Except String Product → Bool
  | .error _ => true
  | .ok _ => false

/-- The five keys `deserialize` requires. -/
def requiredKeys : List String := ["name", "description", "price", "available", "category"]

/-- Claim-side predicate: some required key is absent from the mapping. -/
def missingRequiredKey (m : List (String × Value)) : Bool :=
  requiredKeys.any (fun k => (assocFind m k).isNone)

/-- Claim-side predicate: `available` is present but not of boolean type. -/
def badAvailable (m : List (String × Value)) : Bool :=
  match assocFind m "available" with
  | some (.vBool _) => false
  | some _ => true
  | none => false

/-- Claim-side predicate: `category` is present but is not the name of a
known `Category` enumeration member. -/
def badCategory (m : List (String × Value)) : Bool :=
  match assocFind m "category" with
  | some (.vStr s) => (Category.fromName s).isNone
  | some _ => true
  | none => false

/-- Claim-side predicate: the exact failure conditions the specification
lists for `deserialize`. -/
def deserializeFails : PyData → Bool
  | .atom _ => true
  | .map m => missingRequiredKey m || badAvailable m || badCategory m

/-- Modelled from the spec: the persistent store behind the data-access
layer — the single Product table plus the id sequence ("id: integer,
system-assigned").  Rows keep natural insertion order ("full table scan, no
ordering guarantee beyond natural insertion order"). -/
structure DB where
  rows : List Product
  nextId : Int
deriving DecidableEq, Repr

/-- Modelled from the spec: `create(instance)`: "assigns a fresh id (forcing
id to absent/null before insert to avoid caller-supplied ids), persists a new
row, commits.  Side effect: id becomes populated on the instance." -/
def DB.create (db : DB) (p : Product) : Product × DB :=
  let q := { p with id := some db.nextId }
  (q, { rows := db.rows ++ [q], nextId := db.nextId + 1 })

/-- Modelled from the spec: `find(id) -> Product or absent`: primary-key
lookup. -/
def DB.find (db : DB) (pid : Int) : Option Product :=
  db.rows.find? (fun q => q.id = some pid)

/-- Modelled from the spec: `update(instance)`: persists changes to the
existing row (the row whose `id` matches), commits. -/
def DB.updateRow (db : DB) (p : Product) : DB :=
  { rows := db.rows.map (fun q => if q.id = p.id then p else q), nextId := db.nextId }

/-- Modelled from the spec: `delete(instance)`: "removes the row with
matching id, commits". -/
def DB.deleteRow (db : DB) (p : Product) : DB :=
  { rows := db.rows.filter (fun q => ¬ q.id = p.id), nextId := db.nextId }

/-- Modelled from the spec: `find_by_name(value)`: case-sensitive exact
match (materialized). -/
def DB.findByName (db : DB) (v : String) : List Product :=
  db.rows.filter (fun p => p.name = Value.vStr v)

/-- Modelled from the spec: `find_by_category(value)`: exact match on the
enum value (materialized). -/
def DB.findByCategory (db : DB) (c : Category) : List Product :=
  db.rows.filter (fun p => p.category = c)

/-- Modelled from the spec: `find_by_availability(value)`: exact match on
the boolean (materialized). -/
def DB.findByAvailability (db : DB) (b : Bool) : List Product :=
  db.rows.filter (fun p => p.available = b)

/-- Store well-formedness: every persisted row carries an id below the next
id to be assigned (ids are system-assigned in sequence). -/
def DB.wf (db : DB) : Prop :=
  ∀ r ∈ db.rows, ∀ i : Int, r.id = some i → i < db.nextId

/-- An HTTP response: status code, JSON body, and the optional `Location`
header.  The `Location` URL produced by
`url_for("get_products", product_id=product.id)` is determined by the
product id it points at, so the header is modelled as that id. -/
inductive RespBody where
  | empty : RespBody
  | obj : List (String × Value) → RespBody
  | arr : List (List (String × Value)) → RespBody
  | errorText : RespBody
deriving DecidableEq, Repr

structure Response where
  status : Nat
  body : RespBody
  location : Option Int
deriving DecidableEq, Repr

/-- An error response carrying only a status and a descriptive text body,
as produced by `abort(status, ...)`. -/
def mkError (s : Nat) : Response :=
  { status := s, body := .errorText, location := none }

/-- The request context a handler sees (Flask's `request` global):
the `Content-Type` header if present, the parsed query parameters
(`request.args`, one entry per distinct key), and the JSON body. -/
structure HttpRequest where
  contentType : Option String
  args : List (String × String)
  body : PyData
deriving DecidableEq, Repr

/-- `check_content_type` (routes.py lines 49-65): aborts with 415 when the
`Content-Type` header is absent, returns when it equals the expected value
exactly, and aborts with 415 otherwise.  `some r` is the aborted response. -/
def check_content_type (req : HttpRequest) (expected : String) : Option Response :=
  match req.contentType with
  | none => some (mkError 415)
  | some ct => if ct = expected then none else some (mkError 415)

/-- Python's `str.lower()` (ASCII range, which covers every key and value
the routes compare after lowercasing), character by character. -/
def strLower (s : String) : String := ⟨s.data.map Char.toLower⟩

/-- `create_products` (routes.py lines 71-94): checks the content type, then
deserializes the body into a fresh `Product()`, creates it, and answers 201
with the serialized product and a `Location` header for it.  A raised
`DataValidationError` surfaces as 400 (modelled from the spec: the error
handler translating validation errors to 400 is not among the sources). -/
def create_products (db : DB) (req : HttpRequest) : Response × DB :=
  match check_content_type req "application/json" with
  | some r => (r, db)
  | none =>
    match Product.fresh.deserialize req.body with
    | .error _ => (mkError 400, db)
    | .ok p =>
      let qdb := db.create p
      ({ status := 201, body := .obj qdb.1.serialize, location := qdb.1.id }, qdb.2)

/-- `list_all_products` (routes.py lines 100-141): 400 when more than one
query parameter; otherwise the single parameter's key is lowercased, an
unknown key is 400, and the filter is dispatched to the matching find
operation (`getattr(Category, value)` failure on the category path is 400).
 -/
def list_all_products (db : DB) (req : HttpRequest) : Response :=
  if req.args.length > 1 then mkError 400
  else
    let pv : String × String :=
      match req.args with
      | [] => ("", "")
      | kv :: _ => (strLower kv.1, kv.2)
    if ¬ (pv.1 = "" ∨ pv.1 = "name" ∨ pv.1 = "category" ∨ pv.1 = "available") then
      mkError 400
    else if pv.1 = "name" then
      { status := 200, body := .arr ((db.findByName pv.2).map Product.serialize), location := none }
    else if pv.1 = "category" then
      match Category.fromName pv.2 with
      | none => mkError 400
      | some c =>
        { status := 200, body := .arr ((db.findByCategory c).map Product.serialize), location := none }
    else if pv.1 = "available" then
      { status := 200
        body := .arr ((db.findByAvailability (strLower pv.2 = "true")).map Product.serialize)
        location := none }
    else
      { status := 200, body := .arr (db.rows.map Product.serialize), location := none }

/-- `get_products` (routes.py lines 147-158): primary-key lookup, 404 when
absent, else 200 with the serialized product. -/
def get_products (db : DB) (pid : Int) : Response :=
  match db.find pid with
  | none => mkError 404
  | some p => { status := 200, body := .obj p.serialize, location := none }

/-- `update_products` (routes.py lines 164-188): checks the content type,
then looks the id up (404 when absent), then deserializes the body into the
found product (validation error surfaces as 400) and updates the row. -/
def update_products (db : DB) (pid : Int) (req : HttpRequest) : Response × DB :=
  match check_content_type req "application/json" with
  | some r => (r, db)
  | none =>
    match db.find pid with
    | none => (mkError 404, db)
    | some p =>
      match p.deserialize req.body with
      | .error _ => (mkError 400, db)
      | .ok q =>
        ({ status := 200, body := .obj q.serialize, location := none }, db.updateRow q)

/-- `delete_products` (routes.py lines 194-213): looks the id up (404 when
absent) and deletes the row, answering 204 with an empty body.  The handler
receives the request context but never consults it: in particular it never
calls `check_content_type`. -/
def delete_products (db : DB) (pid : Int) (_req : HttpRequest) : Response × DB :=
  match db.find pid with
  | none => (mkError 404, db)
  | some p => ({ status := 204, body := .empty, location := none }, db.deleteRow p)

/-! ## General lemmas about the entity contract -/

/-- Deserializing the serialization of any product into any instance
succeeds and transfers the five payload fields. -/
theorem deserialize_serialize (p0 p : Product) :
    p0.deserialize (.map p.serialize) =
      .ok { p0 with name := p.name, description := p.description,
                    price := pyStr p.price, available := p.available,
                    category := p.category } := by
  obtain ⟨i, n, de, pr, av, c⟩ := p
  cases c <;> rfl

/-- Characterization of successful deserialization. -/
theorem deserialize_ok_iff (p : Product) (m : List (String × Value)) (q : Product) :
    p.deserialize (.map m) = .ok q ↔
      ∃ nv dv pv b s c,
        assocFind m "name" = some nv ∧ assocFind m "description" = some dv ∧
        assocFind m "price" = some pv ∧ assocFind m "available" = some (.vBool b) ∧
        assocFind m "category" = some (.vStr s) ∧ Category.fromName s = some c ∧
        q = { p with name := nv, description := dv, price := pv,
                     available := b, category := c } := by
  constructor
  · intro h
    cases hn : assocFind m "name" with
    | none => simp [Product.deserialize, hn] at h
    | some nv =>
      cases hd : assocFind m "description" with
      | none => simp [Product.deserialize, hn, hd] at h
      | some dv =>
        cases hp : assocFind m "price" with
        | none => simp [Product.deserialize, hn, hd, hp] at h
        | some pv =>
          rcases ha : assocFind m "available" with _ | (_ | s | b | nn | d | d') <;>
            try simp [Product.deserialize, hn, hd, hp, ha] at h
          rcases hc : assocFind m "category" with _ | (_ | s | bb | nn | dd | dd') <;>
            try simp [Product.deserialize, hn, hd, hp, ha, hc] at h
          cases hfn : Category.fromName s with
          | none => simp [Product.deserialize, hn, hd, hp, ha, hc, hfn] at h
          | some c =>
            refine ⟨nv, dv, pv, b, s, c, rfl, rfl, rfl, rfl, rfl, hfn, ?_⟩
            simp [Product.deserialize, hn, hd, hp, ha, hc, hfn] at h
            exact h.symm
  · rintro ⟨nv, dv, pv, b, s, c, hn, hd, hp, ha, hc, hfn, rfl⟩
    simp [Product.deserialize, hn, hd, hp, ha, hc, hfn]

/-- `check_content_type` succeeds exactly on an exact header match. -/
theorem check_content_type_eq (req : HttpRequest) (expected : String) :
    check_content_type req expected =
      if req.contentType = some expected then none else some (mkError 415) := by
  cases hc : req.contentType with
  | none => simp [check_content_type, hc]
  | some ct => by_cases h : ct = expected <;> simp [check_content_type, hc, h]

/-- A primary-key search over rows that all miss the key, extended with a
fresh row that carries it, finds the fresh row. -/
theorem find_append_eq {l : List Product} {q : Product} {i : Int}
    (h : ∀ r ∈ l, ¬ r.id = some i) (hq : q.id = some i) :
    (l ++ [q]).find? (fun r => r.id = some i) = some q := by
  induction l with
  | nil => simp [List.find?, hq]
  | cons a l ih =>
    have ha := h a (List.mem_cons_self a l)
    simpa [List.find?, ha] using ih fun r hr => h r (List.mem_cons_of_mem a hr)

/-- A product found by primary key carries that key as its id. -/
theorem find_id (db : DB) (pid : Int) (p : Product) (h : db.find pid = some p) :
    p.id = some pid := by
  have hp := List.find?_some h
  simpa using hp

/-- After deleting a product, its id no longer resolves. -/
theorem deleteRow_find_none (db : DB) (p : Product) (i : Int) (hp : p.id = some i) :
    (db.deleteRow p).find i = none := by
  unfold DB.deleteRow DB.find
  rw [List.find?_eq_none]
  intro x hx
  rw [List.mem_filter] at hx
  have hx2 := hx.2
  simp only [decide_eq_true_eq, decide_not] at hx2 ⊢
  intro hxi
  exact absurd (hxi.trans hp.symm) (by simpa using hx2)

/-! ## Concrete test data -/

/-- A fully-populated product: the Fedora product of the test-suite. -/
def fedoraProduct : Product :=
  { id := some 1, name := .vStr "Fedora", description := .vStr "A red hat"
    price := .vDec ⟨1250, 2⟩, available := true, category := .CLOTHS }

/-- The payload of the Fedora product, as posted by the tests. -/
def fedoraData : List (String × Value) :=
  [ ("name", .vStr "Fedora"), ("description", .vStr "A red hat")
  , ("price", .vDec ⟨1250, 2⟩), ("available", .vBool true)
  , ("category", .vStr "CLOTHS") ]

/-- The product obtained by deserializing the Fedora payload into a fresh
instance. -/
def fedoraFresh : Product :=
  { id := none, name := .vStr "Fedora", description := .vStr "A red hat"
    price := .vDec ⟨1250, 2⟩, available := true, category := .CLOTHS }

/-! ## The claims -/

/-- Claim C1: for every fully-populated valid Product `P`, deserializing the
mapping `serialize(P)` into a fresh instance yields an instance whose name,
description, available and category fields equal those of `P`, and whose
price equals that of `P` as a numeric value (not as a string). -/
theorem claim1_serialize_deserialize_roundtrip (p : Product) (s t : String) (d : Dec)
    (_hn : p.name = .vStr s) (_hs : s ≠ "") (_hd : p.description = .vStr t)
    (hp : p.price = .vDec d) :
    ∃ q : Product, Product.fresh.deserialize (.map p.serialize) = .ok q ∧
      q.name = p.name ∧ q.description = p.description ∧ q.available = p.available ∧
      q.category = p.category ∧ q.price.toRat? = p.price.toRat? := by
  refine ⟨_, deserialize_serialize Product.fresh p, rfl, rfl, rfl, rfl, ?_⟩
  rw [hp]; rfl

/-- Witness for C1 at the Fedora product. -/
theorem claim1_serialize_deserialize_roundtrip_witness :
    (fedoraProduct.name = .vStr "Fedora" ∧ ("Fedora" : String) ≠ "" ∧
     fedoraProduct.description = .vStr "A red hat" ∧
     fedoraProduct.price = .vDec ⟨1250, 2⟩) ∧
    (∃ q : Product, Product.fresh.deserialize (.map fedoraProduct.serialize) = .ok q ∧
      q.name = fedoraProduct.name ∧ q.description = fedoraProduct.description ∧
      q.available = fedoraProduct.available ∧ q.category = fedoraProduct.category ∧
      q.price.toRat? = fedoraProduct.price.toRat?) :=
  ⟨⟨rfl, by decide, rfl, rfl⟩,
   claim1_serialize_deserialize_roundtrip fedoraProduct "Fedora" "A red hat" ⟨1250, 2⟩
     rfl (by decide) rfl rfl⟩

/-- Claim C2: `deserialize` fails exactly when the input is not a mapping, a
required key is missing, `available` is present but not boolean (in
particular the string `"true"` is rejected), or `category` is not the name
of a known enumeration member; on success the returned instance keeps its id
and takes its five fields from the mapping. -/
theorem claim2_deserialize_validation (p : Product) (D : PyData) :
    Except.isErr (p.deserialize D) = deserializeFails D ∧
    (∀ q : Product, p.deserialize D = .ok q →
      q.id = p.id ∧ ∃ m, D = .map m ∧
        assocFind m "name" = some q.name ∧
        assocFind m "description" = some q.description ∧
        assocFind m "price" = some q.price ∧
        assocFind m "available" = some (.vBool q.available) ∧
        ∃ s, assocFind m "category" = some (.vStr s) ∧
          Category.fromName s = some q.category) := by
  cases D with
  | atom v =>
    refine ⟨rfl, fun q h => ?_⟩
    simp [Product.deserialize] at h
  | map m =>
    constructor
    · cases hn : assocFind m "name" with
      | none =>
        simp [Product.deserialize, deserializeFails, missingRequiredKey, requiredKeys,
              Except.isErr, hn]
      | some nv =>
        cases hd : assocFind m "description" with
        | none =>
          simp [Product.deserialize, deserializeFails, missingRequiredKey, requiredKeys,
                Except.isErr, hn, hd]
        | some dv =>
          cases hp : assocFind m "price" with
          | none =>
            simp [Product.deserialize, deserializeFails, missingRequiredKey, requiredKeys,
                  Except.isErr, hn, hd, hp]
          | some pv =>
            rcases ha : assocFind m "available" with _ | (_ | s | b | nn | dd | dd') <;>
              try simp [Product.deserialize, deserializeFails, missingRequiredKey,
                        requiredKeys, badAvailable, badCategory, Except.isErr,
                        hn, hd, hp, ha]
            rcases hc : assocFind m "category" with _ | (_ | s | bb | nn | dd | dd') <;>
              try simp [Product.deserialize, deserializeFails, missingRequiredKey,
                        requiredKeys, badAvailable, badCategory, Except.isErr,
                        hn, hd, hp, ha, hc]
            cases hfn : Category.fromName s with
            | none =>
              simp [Product.deserialize, deserializeFails, missingRequiredKey,
                    requiredKeys, badAvailable, badCategory, Except.isErr,
                    hn, hd, hp, ha, hc, hfn]
            | some c =>
              simp [Product.deserialize, deserializeFails, missingRequiredKey,
                    requiredKeys, badAvailable, badCategory, Except.isErr,
                    hn, hd, hp, ha, hc, hfn]
    · intro q h
      rcases (deserialize_ok_iff p m q).mp h with
        ⟨nv, dv, pv, b, s, c, hn, hd, hp, ha, hc, hfn, rfl⟩
      exact ⟨rfl, m, rfl, hn, hd, hp, ha, s, hc, hfn⟩

/-- Witness for C2 at the Fedora payload. -/
theorem claim2_deserialize_validation_witness :
    Product.fresh.deserialize (.map fedoraData) = .ok fedoraFresh ∧
    (fedoraFresh.id = Product.fresh.id ∧ ∃ m, (PyData.map fedoraData) = .map m ∧
      assocFind m "name" = some fedoraFresh.name ∧
      assocFind m "description" = some fedoraFresh.description ∧
      assocFind m "price" = some fedoraFresh.price ∧
      assocFind m "available" = some (.vBool fedoraFresh.available) ∧
      ∃ s, assocFind m "category" = some (.vStr s) ∧
        Category.fromName s = some fedoraFresh.category) :=
  ⟨rfl, (claim2_deserialize_validation Product.fresh (.map fedoraData)).2 fedoraFresh rfl⟩

/-- Counterexample to C3 as stated: the single query parameter key `"NAME"`
is not in the allowed set `name`/`category`/`available`, yet the response is
200, not 400 — routes.py lowercases the key before checking it. -/
theorem claim3_counterexample :
    (list_all_products ⟨[], 1⟩ ⟨none, [("NAME", "x")], .atom .vNull⟩).status = 200 ∧
    ¬ (("NAME" : String) = "name" ∨ ("NAME" : String) = "category" ∨
       ("NAME" : String) = "available") := by
  exact ⟨rfl, by decide⟩

/-- Amended C3: with two or more query parameters the response is always
400; with exactly one parameter whose lowercased key is neither empty nor in
the allowed set the response is 400; with no parameters the response is 200
with all products. -/
theorem claim3_list_query_validation :
    (∀ (db : DB) (req : HttpRequest), req.args.length ≥ 2 →
       list_all_products db req = mkError 400) ∧
    (∀ (db : DB) (k v : String) (ct : Option String) (body : PyData),
       ¬ (strLower k = "" ∨ strLower k = "name" ∨ strLower k = "category" ∨
          strLower k = "available") →
       list_all_products db ⟨ct, [(k, v)], body⟩ = mkError 400) ∧
    (∀ (db : DB) (ct : Option String) (body : PyData),
       list_all_products db ⟨ct, [], body⟩ =
         { status := 200, body := .arr (db.rows.map Product.serialize), location := none }) := by
  refine ⟨fun db req h => ?_, fun db k v ct body h => ?_, fun db ct body => rfl⟩
  · have h1 : req.args.length > 1 := h
    simp [list_all_products, h1]
  · simp [list_all_products, h]

/-- Witness for the amended C3. -/
theorem claim3_list_query_validation_witness :
    list_all_products ⟨[], 1⟩ ⟨none, [("name", "a"), ("available", "b")], .atom .vNull⟩ =
      mkError 400 ∧
    list_all_products ⟨[], 1⟩ ⟨none, [("goaway", "no")], .atom .vNull⟩ = mkError 400 ∧
    list_all_products ⟨[fedoraProduct], 2⟩ ⟨none, [], .atom .vNull⟩ =
      { status := 200, body := .arr ([fedoraProduct].map Product.serialize), location := none } :=
  ⟨claim3_list_query_validation.1 ⟨[], 1⟩
     ⟨none, [("name", "a"), ("available", "b")], .atom .vNull⟩ (by decide),
   claim3_list_query_validation.2.1 ⟨[], 1⟩ "goaway" "no" none (.atom .vNull) (by decide),
   claim3_list_query_validation.2.2 ⟨[fedoraProduct], 2⟩ none (.atom .vNull)⟩

/-- Claim C4: listing with the single `category=v` parameter answers 400
when `v` is not the (case-sensitive) name of an enumeration member, and 200
with exactly the products of that category when it is. -/
theorem claim4_category_filter (db : DB) (v : String) (ct : Option String) (body : PyData) :
    (Category.fromName v = none →
       list_all_products db ⟨ct, [("category", v)], body⟩ = mkError 400) ∧
    (∀ c : Category, Category.fromName v = some c →
       list_all_products db ⟨ct, [("category", v)], body⟩ =
         { status := 200, body := .arr ((db.findByCategory c).map Product.serialize),
           location := none }) := by
  constructor
  · intro h
    simp +decide [list_all_products, h]
  · intro c h
    simp +decide [list_all_products, h]

/-- Witness for C4: the unknown name `"hacking-bs"` is rejected and the
member name `"CLOTHS"` filters to the CLOTHS products. -/
theorem claim4_category_filter_witness :
    list_all_products ⟨[fedoraProduct], 2⟩ ⟨none, [("category", "hacking-bs")], .atom .vNull⟩ =
      mkError 400 ∧
    list_all_products ⟨[fedoraProduct], 2⟩ ⟨none, [("category", "CLOTHS")], .atom .vNull⟩ =
      { status := 200
        body := .arr ((DB.findByCategory ⟨[fedoraProduct], 2⟩ .CLOTHS).map Product.serialize)
        location := none } :=
  ⟨(claim4_category_filter ⟨[fedoraProduct], 2⟩ "hacking-bs" none (.atom .vNull)).1 rfl,
   (claim4_category_filter ⟨[fedoraProduct], 2⟩ "CLOTHS" none (.atom .vNull)).2 .CLOTHS rfl⟩

/-- Claim C5: listing with the single `available=v` parameter always answers
200, filtering by the boolean that is true exactly when `v` equals `"true"`
case-insensitively. -/
theorem claim5_availability_filter (db : DB) (v : String) (ct : Option String) (body : PyData) :
    list_all_products db ⟨ct, [("available", v)], body⟩ =
      { status := 200
        body := .arr ((db.findByAvailability (strLower v = "true")).map Product.serialize)
        location := none } := by
  rfl

/-- Claim C6: a POST with `Content-Type: application/json` and a validly
deserializable body answers 201 with the serialized created product — its
`id` populated with the system-assigned id and its `price` rendered as a
string — and a `Location` header that GET resolves to 200 with the same
body. -/
theorem claim6_create_product (db : DB) (req : HttpRequest) (p : Product)
    (hwf : db.wf) (hct : req.contentType = some "application/json")
    (hok : Product.fresh.deserialize req.body = .ok p) :
    create_products db req =
      ({ status := 201, body := .obj (Product.serialize { p with id := some db.nextId }),
         location := some db.nextId },
       { rows := db.rows ++ [{ p with id := some db.nextId }], nextId := db.nextId + 1 }) ∧
    assocFind (Product.serialize { p with id := some db.nextId }) "id" =
      some (.vInt db.nextId) ∧
    (∀ d : Dec, p.price = .vDec d →
      assocFind (Product.serialize { p with id := some db.nextId }) "price" =
        some (.vDecStr d)) ∧
    get_products
        { rows := db.rows ++ [{ p with id := some db.nextId }], nextId := db.nextId + 1 }
        db.nextId =
      { status := 200, body := .obj (Product.serialize { p with id := some db.nextId }),
        location := none } := by
  have hcheck : check_content_type req "application/json" = none := by
    rw [check_content_type_eq, if_pos hct]
  refine ⟨?_, rfl, ?_, ?_⟩
  · simp [create_products, hcheck, hok, DB.create]
  · intro d hd
    simp [Product.serialize, assocFind, hd, pyStr]
  · have hfind :
        DB.find
          { rows := db.rows ++ [{ p with id := some db.nextId }], nextId := db.nextId + 1 }
          db.nextId = some { p with id := some db.nextId } := by
      unfold DB.find
      exact find_append_eq
        (fun r hr hco => absurd (hwf r hr db.nextId hco) (lt_irrefl db.nextId)) rfl
    simp [get_products, hfind]

/-- Witness for C6: posting the Fedora payload to the empty store; the
created product's price field renders to the string `"12.50"`. -/
theorem claim6_create_product_witness :
    DB.wf ⟨[], 1⟩ ∧
    (create_products ⟨[], 1⟩ ⟨some "application/json", [], .map fedoraData⟩ =
      ({ status := 201, body := .obj fedoraProduct.serialize, location := some 1 },
       { rows := [fedoraProduct], nextId := 2 }) ∧
     assocFind fedoraProduct.serialize "id" = some (.vInt 1) ∧
     (∀ d : Dec, fedoraFresh.price = .vDec d →
        assocFind fedoraProduct.serialize "price" = some (.vDecStr d)) ∧
     get_products ⟨[fedoraProduct], 2⟩ 1 =
       { status := 200, body := .obj fedoraProduct.serialize, location := none }) ∧
    assocFind fedoraProduct.serialize "price" = some (.vDecStr ⟨1250, 2⟩) ∧
    Value.renderStr (.vDecStr ⟨1250, 2⟩) = some "12.50" :=
  ⟨fun r hr => by simp at hr,
   claim6_create_product ⟨[], 1⟩ ⟨some "application/json", [], .map fedoraData⟩ fedoraFresh
     (fun r hr => by simp at hr) rfl rfl,
   rfl, rfl⟩

/-- Counterexample to C7 as stated: DELETE on an existing product answers
204 even when the `Content-Type` header is absent or is
`"application/json; charset=utf-8"` — `delete_products` never calls
`check_content_type`, so no 415 is produced. -/
theorem claim7_counterexample :
    (delete_products ⟨[fedoraProduct], 2⟩ 1 ⟨none, [], .atom (.vStr "bad data")⟩).1.status
      = 204 ∧
    (delete_products ⟨[fedoraProduct], 2⟩ 1
        ⟨some "application/json; charset=utf-8", [], .atom .vNull⟩).1.status = 204 ∧
    (204 : Nat) ≠ 415 := by
  exact ⟨rfl, rfl, by decide⟩

/-- Amended C7: POST and PUT require an exact `Content-Type:
application/json` match — an absent or different header value (including
values merely containing it) yields 415 and leaves the store unchanged —
while DELETE performs no content-type check at all: its outcome is
independent of the request. -/
theorem claim7_content_type_enforcement :
    (∀ (db : DB) (req : HttpRequest), req.contentType ≠ some "application/json" →
       create_products db req = (mkError 415, db)) ∧
    (∀ (db : DB) (pid : Int) (req : HttpRequest),
       req.contentType ≠ some "application/json" →
       update_products db pid req = (mkError 415, db)) ∧
    (∀ (db : DB) (pid : Int) (req req' : HttpRequest),
       delete_products db pid req = delete_products db pid req') := by
  refine ⟨fun db req h => ?_, fun db pid req h => ?_, fun db pid req req' => rfl⟩
  · simp [create_products, check_content_type_eq, h]
  · simp [update_products, check_content_type_eq, h]

/-- Witness for the amended C7. -/
theorem claim7_content_type_enforcement_witness :
    create_products ⟨[], 1⟩ ⟨some "application/json; charset=utf-8", [], .map fedoraData⟩ =
      (mkError 415, ⟨[], 1⟩) ∧
    update_products ⟨[fedoraProduct], 2⟩ 1 ⟨none, [], .map fedoraData⟩ =
      (mkError 415, ⟨[fedoraProduct], 2⟩) ∧
    delete_products ⟨[fedoraProduct], 2⟩ 1 ⟨none, [], .atom .vNull⟩ =
      delete_products ⟨[fedoraProduct], 2⟩ 1 ⟨some "text/plain", [], .atom .vNull⟩ :=
  ⟨claim7_content_type_enforcement.1 ⟨[], 1⟩
     ⟨some "application/json; charset=utf-8", [], .map fedoraData⟩ (by decide),
   claim7_content_type_enforcement.2.1 ⟨[fedoraProduct], 2⟩ 1
     ⟨none, [], .map fedoraData⟩ (by decide),
   claim7_content_type_enforcement.2.2 ⟨[fedoraProduct], 2⟩ 1
     ⟨none, [], .atom .vNull⟩ ⟨some "text/plain", [], .atom .vNull⟩⟩

/-- Claim C8: DELETE on an existing id answers 204 with an empty body and
removes the product (its id no longer resolves), and a second DELETE on the
same id answers 404. -/
theorem claim8_delete_twice (db : DB) (pid : Int) (p : Product) (req req2 : HttpRequest)
    (h : db.find pid = some p) :
    (delete_products db pid req).1 = { status := 204, body := .empty, location := none } ∧
    ((delete_products db pid req).2).find pid = none ∧
    (delete_products (delete_products db pid req).2 pid req2).1 = mkError 404 := by
  have hid : p.id = some pid := find_id db pid p h
  have h2 : (delete_products db pid req).2 = db.deleteRow p := by
    simp [delete_products, h]
  have h3 : (db.deleteRow p).find pid = none := deleteRow_find_none db p pid hid
  refine ⟨by simp [delete_products, h], ?_, ?_⟩
  · rw [h2]; exact h3
  · rw [h2]; simp [delete_products, h3]

/-- Witness for C8 at the Fedora product. -/
theorem claim8_delete_twice_witness :
    (delete_products ⟨[fedoraProduct], 2⟩ 1 ⟨none, [], .atom .vNull⟩).1 =
      { status := 204, body := .empty, location := none } ∧
    ((delete_products ⟨[fedoraProduct], 2⟩ 1 ⟨none, [], .atom .vNull⟩).2).find 1 = none ∧
    (delete_products (delete_products ⟨[fedoraProduct], 2⟩ 1 ⟨none, [], .atom .vNull⟩).2 1
        ⟨none, [], .atom .vNull⟩).1 = mkError 404 :=
  claim8_delete_twice ⟨[fedoraProduct], 2⟩ 1 fedoraProduct
    ⟨none, [], .atom .vNull⟩ ⟨none, [], .atom .vNull⟩ rfl

/-- Claim C9: PUT applies its error checks in the order content-type, then
existence, then body validity: a wrong or missing content type yields 415
whatever the id, and a JSON content type with a nonexistent id yields 404
whatever the body; in both cases the store is unchanged. -/
theorem claim9_update_check_order :
    (∀ (db : DB) (pid : Int) (req : HttpRequest),
       req.contentType ≠ some "application/json" →
       update_products db pid req = (mkError 415, db)) ∧
    (∀ (db : DB) (pid : Int) (req : HttpRequest),
       req.contentType = some "application/json" → db.find pid = none →
       update_products db pid req = (mkError 404, db)) := by
  refine ⟨fun db pid req h => ?_, fun db pid req hct hf => ?_⟩
  · simp [update_products, check_content_type_eq, h]
  · simp [update_products, check_content_type_eq, hct, hf]

/-- Witness for C9: a nonexistent id with a wrong content type gets 415; a
nonexistent id with a JSON content type but an undeserializable body gets
404. -/
theorem claim9_update_check_order_witness :
    update_products ⟨[fedoraProduct], 2⟩ 666 ⟨some "text/plain", [], .map fedoraData⟩ =
      (mkError 415, ⟨[fedoraProduct], 2⟩) ∧
    update_products ⟨[fedoraProduct], 2⟩ 666
        ⟨some "application/json", [], .atom (.vStr "")⟩ =
      (mkError 404, ⟨[fedoraProduct], 2⟩) :=
  ⟨claim9_update_check_order.1 ⟨[fedoraProduct], 2⟩ 666
     ⟨some "text/plain", [], .map fedoraData⟩ (by decide),
   claim9_update_check_order.2 ⟨[fedoraProduct], 2⟩ 666
     ⟨some "application/json", [], .atom (.vStr "")⟩ rfl (by decide)⟩

/-- Claim C10: POST is atomic on failure — a 415 or 400 outcome leaves the
stored products unchanged. -/
theorem claim10_create_atomic (db : DB) (req : HttpRequest) (resp : Response) (db' : DB)
    (h : create_products db req = (resp, db'))
    (hs : resp.status = 415 ∨ resp.status = 400) : db' = db := by
  cases hcheck : check_content_type req "application/json" with
  | some r =>
    have he : create_products db req = (r, db) := by
      simp [create_products, hcheck]
    rw [he] at h
    exact (congrArg Prod.snd h).symm
  | none =>
    cases hde : Product.fresh.deserialize req.body with
    | error e =>
      have he : create_products db req = (mkError 400, db) := by
        simp [create_products, hcheck, hde]
      rw [he] at h
      exact (congrArg Prod.snd h).symm
    | ok p =>
      have he : create_products db req =
          ({ status := 201,
             body := .obj (Product.serialize { p with id := some db.nextId }),
             location := some db.nextId },
           { rows := db.rows ++ [{ p with id := some db.nextId }],
             nextId := db.nextId + 1 }) := by
        simp [create_products, hcheck, hde, DB.create]
      rw [he] at h
      have hst := congrArg (fun x => x.1.status) h
      simp at hst
      rw [← hst] at hs
      rcases hs with hs | hs <;> simp at hs

/-- Witness for C10: a POST without a content type fails with 415 and
leaves the empty store empty. -/
theorem claim10_create_atomic_witness :
    create_products ⟨[], 1⟩ ⟨none, [], .map fedoraData⟩ = (mkError 415, ⟨[], 1⟩) ∧
    (⟨[], 1⟩ : DB) = ⟨[], 1⟩ :=
  ⟨rfl,
   claim10_create_atomic ⟨[], 1⟩ ⟨none, [], .map fedoraData⟩ (mkError 415) ⟨[], 1⟩
     rfl (Or.inl rfl)⟩

end ProductStore
